import Mathlib

/-!
# Verification of the ffmpeg-service media composition pipeline

Shallow embedding of the pure kernel of the `ffmpeg-service` repository:
the filter-string builders, artifact-URL computation, bounded stderr
capture, outcome classification, segment/padding sequencing, SRT
generation and temp-file lifecycle, together with theorems settling the
specification's claims about them.

JavaScript numbers that are only ever interpolated into template strings
are modelled by their decimal rendering (a `String` field); integers that
participate in arithmetic are modelled as `Int`/`Nat`.
-/

namespace FFSvc

/-! ## Artifact URL computation (server.js `fullUrl`, part_004 `baseUrl` use)

`server.js` line 128: `const fullUrl = BASE_URL ? `${BASE_URL}/output/${outName}` : `/output/${outName}`;`
`part_004` lines 321-323: `const url = baseUrl() ? `${baseUrl()}/output/${outName}` : `/output/${outName}`;`
A JS string is falsy exactly when it is empty, so the guard is `base ≠ ""`. -/

/-- Embeds `server.js` line 128/`part_000` line 186: the published artifact
URL computed from the configured base URL and the output file name. -/
def fullUrl (base outName : String) : String :=
  if base ≠ "" then base ++ "/output/" ++ outName else "/output/" ++ outName

/-- Embeds `part_004` lines 321-323: identical computation, from
`baseUrl()` (`PUBLIC_BASE_URL` / `RENDER_EXTERNAL_URL` / `""`). -/
def artifactUrl (base outName : String) : String :=
  if base ≠ "" then base ++ "/output/" ++ outName else "/output/" ++ outName

theorem String.append_assoc' (a b c : String) : a ++ b ++ c = a ++ (b ++ c) := by
  apply String.ext
  cases a with | mk da =>
  cases b with | mk db =>
  cases c with | mk dc =>
  show (da ++ db) ++ dc = da ++ (db ++ dc)
  exact List.append_assoc da db dc

/-! ## Encode outcome classification (`runFFmpeg`)

`server.cjs` lines 273-277 (and `server.js` 216-220, `part_002` 172-175):
```
p.on('close', code => {
  const errTxt = Buffer.concat(errBuf).toString('utf8');
  if (code === 0) return resolve();
  reject(new Error(`ffmpeg exit ${code}\n${errTxt}`));
});
```
The promise resolves exactly when the exit code is zero; the rejection
carries the exit code and the retained stderr tail.  No variant inspects
the output file. -/

/-- Terminal outcome of one encode invocation. -/
inductive Outcome where
  | success : Outcome
  | error (exitCode : Int) (diagnosticTail : String) : Outcome
  deriving DecidableEq, Repr

/-- Embeds the `close` handler of `runFFmpeg` (`server.cjs` 273-277):
classify the child's exit code, attaching the retained stderr tail on
failure.  The output file is never consulted. -/
def runFFmpegResult (exitCode : Int) (diagnosticTail : String) : Outcome :=
  if exitCode = 0 then Outcome.success else Outcome.error exitCode diagnosticTail

/-- C6 as stated: success iff (exit code 0 AND output file exists AND
output file non-empty).  The file-state booleans are free because the
code never reads them. -/
def c6ClaimStatement : Prop :=
  ∀ (exitCode : Int) (tail : String) (outExists outNonEmpty : Bool),
    runFFmpegResult exitCode tail = Outcome.success ↔
      (exitCode = 0 ∧ outExists = true ∧ outNonEmpty = true)

/-! ## Bounded stderr capture (`server.cjs` lines 257-280)

```
let errBuf = []; let errSize = 0;
const ERR_CAP = 200 * 1024;
p.stderr.on('data', c => {
  errSize += c.length;
  errBuf.push(c);
  while (errSize > ERR_CAP && errBuf.length) {
    errSize -= errBuf[0].length;
    errBuf.shift();
  }
});
```
`errSize` is maintained equal to the total length of the retained
chunks, so the `while` loop is modelled by `trimFront` below. -/

/-- The fixed stderr capacity, `ERR_CAP = 200 * 1024` bytes. -/
def errCap : Nat := 200 * 1024

/-- Total size of the retained chunk list (the code's `errSize`). -/
def bufSize (buf : List String) : Nat := (buf.map String.length).sum

/-- Embeds the `while (errSize > ERR_CAP && errBuf.length)` loop of
`runFFmpeg` (`server.cjs` 267-270): shift chunks off the front while the
retained size exceeds the capacity. -/
def trimFront : List String → List String
  | [] => []
  | c :: rest => if bufSize (c :: rest) > errCap then trimFront rest else c :: rest

/-- Embeds one `stderr` `data` event (`server.cjs` 264-271): append the
new chunk, then trim from the front. -/
def pushChunk (buf : List String) (c : String) : List String :=
  trimFront (buf ++ [c])

/-- Embeds the whole capture over the sequence of stderr chunks one
encode produces, in arrival order. -/
def captureStderr (chunks : List String) : List String :=
  chunks.foldl pushChunk []

theorem bufSize_trimFront_le (buf : List String) : bufSize (trimFront buf) ≤ errCap := by
  induction buf with
  | nil => simp [trimFront, bufSize, errCap]
  | cons c rest ih =>
    by_cases h : bufSize (c :: rest) > errCap
    · simpa [trimFront, h] using ih
    · simpa [trimFront, h] using Nat.le_of_not_lt h

theorem trimFront_suffix (buf : List String) : trimFront buf <:+ buf := by
  induction buf with
  | nil => simp [trimFront]
  | cons c rest ih =>
    by_cases h : bufSize (c :: rest) > errCap
    · rw [trimFront, if_pos h]
      exact ih.trans (List.suffix_cons c rest)
    · rw [trimFront, if_neg h]

theorem suffix_append_right {α : Type} {s l : List α} (h : s <:+ l) (t : List α) :
    s ++ t <:+ l ++ t := by
  obtain ⟨p, hp⟩ := h
  exact ⟨p, by rw [← List.append_assoc, hp]⟩

theorem captureStderr_go_suffix (chunks : List String) :
    ∀ buf, chunks.foldl pushChunk buf <:+ buf ++ chunks := by
  induction chunks with
  | nil => intro buf; simp
  | cons c cs ih =>
    intro buf
    rw [List.foldl_cons]
    have h2 : pushChunk buf c <:+ buf ++ [c] := trimFront_suffix _
    have h4 := (ih (pushChunk buf c)).trans (suffix_append_right h2 cs)
    simpa [List.append_assoc] using h4

theorem captureStderr_go_bounded (chunks : List String) :
    ∀ buf, bufSize buf ≤ errCap → bufSize (chunks.foldl pushChunk buf) ≤ errCap := by
  induction chunks with
  | nil => intro buf h; simpa using h
  | cons c cs ih =>
    intro buf _
    simpa using ih (pushChunk buf c) (bufSize_trimFront_le _)

/-! ## Claim theorems: C3, C4, C6 -/

/-- C3: for every finished artifact with filename `f`, with a configured
base address the returned artifact address is `base ++ "/" ++ "output" ++
"/" ++ f`, and with no base address configured it is `"/" ++ "output" ++
"/" ++ f` — in both the `server.js` handler (`fullUrl`) and the
`part_004` handler (`artifactUrl`). -/
theorem artifact_address_roundtrip (base f : String) :
    (base ≠ "" →
      fullUrl base f = base ++ "/" ++ "output" ++ "/" ++ f ∧
      artifactUrl base f = base ++ "/" ++ "output" ++ "/" ++ f) ∧
    (fullUrl "" f = "/" ++ "output" ++ "/" ++ f ∧
      artifactUrl "" f = "/" ++ "output" ++ "/" ++ f) := by
  constructor
  · intro hb
    have h : base ++ "/output/" ++ f = base ++ "/" ++ "output" ++ "/" ++ f := by
      rw [show ("/output/" : String) = "/" ++ "output" ++ "/" from rfl]
      simp [String.append_assoc']
    exact ⟨by rw [fullUrl, if_pos hb]; exact h, by rw [artifactUrl, if_pos hb]; exact h⟩
  · constructor
    · rw [fullUrl, if_neg (by simp)]
      simp [String.append_assoc']
    · rw [artifactUrl, if_neg (by simp)]
      simp [String.append_assoc']

/-- Witness for C3 at a concrete base address and filename. -/
theorem artifact_address_roundtrip_witness :
    fullUrl "https://svc.example" "v.mp4" =
      "https://svc.example" ++ "/" ++ "output" ++ "/" ++ "v.mp4" :=
  ((artifact_address_roundtrip "https://svc.example" "v.mp4").1 (by decide)).1

/-- C4: over every sequence of stderr chunks, the retained diagnostic
buffer never exceeds the 200 KB capacity, and the retained chunks are a
suffix of the arrived chunks — whatever was discarded is an initial
(oldest) portion of the stream. -/
theorem stderr_capture_bounded (chunks : List String) :
    bufSize (captureStderr chunks) ≤ errCap ∧ captureStderr chunks <:+ chunks := by
  refine ⟨captureStderr_go_bounded chunks [] (by simp [bufSize, errCap]), ?_⟩
  simpa using captureStderr_go_suffix chunks []

/-- C6 as stated is false: at exit code `0` with the output file absent
and empty (`outExists = outNonEmpty = false`) the executor still reports
success — the code never inspects the output file. -/
theorem runFFmpeg_no_output_check : c6ClaimStatement = False :=
  eq_false fun h => by
    have := (h 0 "" false false).mp (by rw [runFFmpegResult, if_pos rfl])
    exact absurd this.2.1 (by simp)

/-- C6 amended: the executor reports success iff the child exits with
code zero, and on a nonzero exit code returns an error carrying the exit
code and the diagnostic tail; the output file is not checked. -/
theorem runFFmpeg_success_iff (c : Int) (t : String) :
    (runFFmpegResult c t = Outcome.success ↔ c = 0) ∧
    (c ≠ 0 → runFFmpegResult c t = Outcome.error c t) := by
  constructor
  · constructor
    · intro h
      by_contra hc
      rw [runFFmpegResult, if_neg hc] at h
      exact Outcome.noConfusion h
    · intro h; rw [runFFmpegResult, if_pos h]
  · intro h; rw [runFFmpegResult, if_neg h]

/-- Witness for C6's amended claim at exit code 1. -/
theorem runFFmpeg_success_iff_witness :
    runFFmpegResult 1 "boom" = Outcome.error 1 "boom" :=
  (runFFmpeg_success_iff 1 "boom").2 (by decide)

/-! ## Temp-file lifecycle (C5, `server.cjs` single-audio handler)

`server.cjs` lines 343-431: the handler downloads `img_<uid>.png`,
`aud_<uid>.mp3` and optionally `sub_<uid>.srt` into `TMP_DIR`, then

```
await runFFmpeg(args, { cwd: OUT_DIR });
...
Promise.allSettled([fsp.unlink(imgPath), fsp.unlink(audPath),
                    srtPath ? fsp.unlink(srtPath) : null]);
res.json({ file_url });
```

The `unlink` calls sit *after* the `await`, so when `runFFmpeg` rejects
(nonzero exit code) control jumps to the `catch` block at lines 428-431,
which responds with status 500 and performs no cleanup. -/

/-- Embeds the temp-file lifecycle of the single-audio `/make/segments`
handler (`server.cjs` 343-431): the temp files created for the job that
are still present once the handler has responded.  Cleanup runs only on
the success continuation after `await runFFmpeg`. -/
def remainingTempFiles (hasSubtitle : Bool) (encodeOk : Bool) : List String :=
  let created := ["img", "aud"] ++ (if hasSubtitle then ["sub"] else [])
  if encodeOk then [] else created

/-- C5 evaluated at the failing input: a job with a subtitle whose encode
exits nonzero leaves all three downloaded temp files behind. -/
theorem cleanup_skipped_on_encode_failure :
    remainingTempFiles true false = ["img", "aud", "sub"] ∧
    remainingTempFiles true false ≠ [] := by
  constructor <;> simp [remainingTempFiles]

/-! ## Per-segment mode artifacts (C7, `part_000` lines 337-384)

```
for (let i = 0; i < audio_urls.length; i++) {
  ...
  const outName = `${prefix}_${String(i + 1).padStart(2, '0')}.mp4`;
  ...
  urls.push(videoUrl);
}
return res.json({ ok: true, video_urls: urls, count: urls.length });
``` -/

/-- Embeds JavaScript `s.padStart(2, "0")`. -/
def jsPadStart2 (s : String) : String :=
  if s.length < 2 then String.mk (List.replicate (2 - s.length) '0') ++ s else s

/-- The numeric sequence suffix carried by the artifact produced for the
i-th (0-based) audio reference: `i + 1` (`part_000` line 354). -/
def segSeqNumber (i : Nat) : Nat := i + 1

/-- Embeds the artifact name of the i-th per-segment encode
(`part_000` line 354): `${prefix}_${String(i + 1).padStart(2, '0')}.mp4`. -/
def segOutName (pfx : String) (i : Nat) : String :=
  pfx ++ "_" ++ jsPadStart2 (toString (segSeqNumber i)) ++ ".mp4"

/-- Embeds the per-segment loop (`part_000` lines 351-377): one artifact
name per audio reference, pushed in input order. -/
def segOutNames (pfx : String) (n : Nat) : List String :=
  (List.range n).map (segOutName pfx)

/-- C7: in per-segment mode with `n ≥ 1` audio references, exactly `n`
artifacts are produced; the i-th artifact's name carries the zero-padded
sequence suffix of position `i` (`i + 1`); and the sequence numbers are
strictly increasing along the input order. -/
theorem per_segment_artifacts (pfx : String) (n : Nat) (hn : 1 ≤ n) :
    (segOutNames pfx n).length = n ∧
    (∀ i, i < n → (segOutNames pfx n)[i]? =
        some (pfx ++ "_" ++ jsPadStart2 (toString (i + 1)) ++ ".mp4")) ∧
    (∀ i j, i < j → j < n → segSeqNumber i < segSeqNumber j) := by
  refine ⟨by simp [segOutNames], fun i hi => ?_, fun i j hij _ => by
    simpa [segSeqNumber] using hij⟩
  simp [segOutNames, segOutName, segSeqNumber, List.getElem?_map, List.getElem?_range hi]

/-- Witness for C7 at two audio references: both artifact names,
zero-padded `_01` and `_02`. -/
theorem per_segment_artifacts_witness :
    (segOutNames "seg" 2).length = 2 ∧
    (segOutNames "seg" 2)[0]? =
      some ("seg" ++ "_" ++ jsPadStart2 (toString (0 + 1)) ++ ".mp4") :=
  ⟨(per_segment_artifacts "seg" 2 (by decide)).1,
    (per_segment_artifacts "seg" 2 (by decide)).2.1 0 (by decide)⟩

/-! ## Story-mode padding placement (C8, `part_000` lines 252-315)

```
for (let i = 0; i < audio_urls.length; i++) {
  ... encode segment i ...; segmentPaths.push(segPath);
  if (pad_between_ms > 0 && i < audio_urls.length - 1) {
    ... encode padding segment ...; segmentPaths.push(padSeg);
  }
}
```
The final `concatCmd` (lines 305-315) consumes `segmentPaths` in list
order (`[0:v][0:a][1:v][1:a]...concat=n=${n}`), so the concatenated
output's timeline order is exactly `segmentPaths` order. -/

/-- An entry of `segmentPaths`: the encoded segment for the i-th audio
reference, or the padding segment encoded after it. -/
inductive StoryItem where
  | seg (i : Nat) : StoryItem
  | pad (i : Nat) : StoryItem
  deriving DecidableEq, Repr

/-- Embeds the story-mode loop (`part_000` lines 267-303): the
`segmentPaths` list the final concat pass consumes, in push order. -/
def storySegmentList (n : Nat) (padBetweenMs : Nat) : List StoryItem :=
  (List.range n).flatMap fun i =>
    StoryItem.seg i :: (if 0 < padBetweenMs ∧ i < n - 1 then [StoryItem.pad i] else [])

theorem storySegmentList_structure (n padMs : Nat) (hn : 2 ≤ n) (hp : 0 < padMs) :
    storySegmentList n padMs =
      ((List.range (n - 1)).flatMap fun i => [StoryItem.seg i, StoryItem.pad i])
        ++ [StoryItem.seg (n - 1)] := by
  obtain ⟨m, rfl⟩ : ∃ m, n = m + 2 := ⟨n - 2, by omega⟩
  unfold storySegmentList
  rw [show m + 2 - 1 = m + 1 from rfl, List.range_succ, List.flatMap_append]
  congr 1
  · refine List.flatMap_congr fun i hi => ?_
    rw [List.mem_range] at hi
    simp [hp, show i < m + 1 from hi]
  · simp [show ¬ (m + 1 < m + 1) from by omega]

/-- C8: in story mode with `n ≥ 2` segments and positive inter-segment
padding, `segmentPaths` is exactly segment 0, its padding, segment 1,
its padding, …, segment n-1; a padding item follows segment i exactly
when `i < n - 1`, the first item is segment 0 and the last item is
segment n-1 — never padding. -/
theorem story_padding_strictly_between (n padMs : Nat) (hn : 2 ≤ n) (hp : 0 < padMs) :
    storySegmentList n padMs =
      ((List.range (n - 1)).flatMap fun i => [StoryItem.seg i, StoryItem.pad i])
        ++ [StoryItem.seg (n - 1)] ∧
    (∀ i, StoryItem.pad i ∈ storySegmentList n padMs ↔ i < n - 1) ∧
    (storySegmentList n padMs).head? = some (StoryItem.seg 0) ∧
    (storySegmentList n padMs).getLast? = some (StoryItem.seg (n - 1)) := by
  have hs := storySegmentList_structure n padMs hn hp
  refine ⟨hs, fun i => ?_, ?_, ?_⟩
  · rw [hs]
    simp [List.mem_flatMap, List.mem_range]
  · rw [hs]
    obtain ⟨m, rfl⟩ : ∃ m, n = m + 2 := ⟨n - 2, by omega⟩
    rw [show m + 2 - 1 = m + 1 from rfl, List.range_succ_eq_map]
    simp
  · rw [hs, List.getLast?_concat]

/-- Witness for C8 at three segments with 100 ms padding. -/
theorem story_padding_strictly_between_witness :
    storySegmentList 3 100 =
      ((List.range 2).flatMap fun i => [StoryItem.seg i, StoryItem.pad i])
        ++ [StoryItem.seg 2] :=
  (story_padding_strictly_between 3 100 (by decide) (by decide)).1

/-! ## Effect graph builders

Three filter-string builders are embedded below:
* `buildMotionFilter` — `server.js` lines 224-268; every numeric option is
  only ever interpolated into the template, never computed with, so each
  is modelled by its decimal rendering (a `String` field);
* `buildFilter` — `server.cjs` lines 40-67, with its `parseInt`-based
  resolution parsing;
* `buildFilterChain` (and its helper `buildMotion`) — `part_004` lines
  69-142, the design-center builder with the audio chain. -/

/-- Options of `buildMotionFilter` (`server.js` 225-247) with the source's
defaults, each numeric default rendered as JS renders it. -/
structure MotionOpts where
  width : String := "1080"
  height : String := "1920"
  scaleFactor : String := "1.22"
  panXSlow : String := "20"
  panXFast : String := "5"
  panYSlow : String := "16"
  panYFast : String := "4"
  rotSlow : String := "0.005"
  rotFast : String := "0.002"
  contrast : String := "1.06"
  brightness : String := "-0.04"
  saturation : String := "0.92"
  noiseStrength : String := "9"
  rgbShift : String := "2"
  vignette : String := "0.12"
  vignetteSoft : String := "0.65"
  fps : String := "30"
  enableNoise : Bool := true
  enableRgbShift : Bool := true
  enableVignette : Bool := true
  deriving DecidableEq, Repr

/-- Embeds `buildMotionFilter` (`server.js` 224-268): the video effect
chain, `pieces.join(",")` followed by the output label `[v]`. -/
def buildMotionFilter (o : MotionOpts) : String :=
  let scaleW := "ceil(" ++ o.width ++ "*" ++ o.scaleFactor ++ ")"
  let scaleH := "ceil(" ++ o.height ++ "*" ++ o.scaleFactor ++ ")"
  let pieces :=
    ["scale=" ++ scaleW ++ ":" ++ scaleH,
     "crop=" ++ o.width ++ ":" ++ o.height ++
       ":x='(in_w-out_w)/2 + " ++ o.panXSlow ++ "*sin(t*0.25) + " ++ o.panXFast ++
       "*sin(t*4.2)':y='(in_h-out_h)/2 + " ++ o.panYSlow ++ "*sin(t*0.20) + " ++
       o.panYFast ++ "*sin(t*3.5)'",
     "rotate='" ++ o.rotSlow ++ "*sin(1.7*t)+" ++ o.rotFast ++ "*cos(9*t)'",
     "eq=contrast=" ++ o.contrast ++ ":brightness=" ++ o.brightness ++
       ":saturation=" ++ o.saturation]
    ++ (if o.enableNoise then ["noise=alls=" ++ o.noiseStrength ++ ":allf=t"] else [])
    ++ (if o.enableRgbShift then
          ["rgbashift=rh=" ++ o.rgbShift ++ ":rv=" ++ o.rgbShift ++
           ":gh=-" ++ o.rgbShift ++ ":gv=-" ++ o.rgbShift] else [])
    ++ (if o.enableVignette then ["vignette=" ++ o.vignette ++ ":" ++ o.vignetteSoft] else [])
    ++ ["fps=" ++ o.fps, "format=yuv420p"]
  String.intercalate "," pieces ++ "[v]"

/-- Embeds JavaScript `parseInt(s, 10) || 0`: leading whitespace and an
optional sign, then the leading decimal digits; `NaN` (no digits) becomes
`0` through `|| 0`. -/
def jsParseIntOr0 (s : String) : Int :=
  let cs := s.data.dropWhile Char.isWhitespace
  let signedRest : Bool × List Char :=
    match cs with
    | '-' :: t => (true, t)
    | '+' :: t => (false, t)
    | t => (false, t)
  let ds := signedRest.2.takeWhile Char.isDigit
  if ds.isEmpty then 0
  else
    let v : Nat := ds.foldl (fun a c => a * 10 + (c.toNat - 48)) 0
    if signedRest.1 then -(v : Int) else (v : Int)

/-- JavaScript `x || d` on a possibly-undefined number: `undefined` and
`0` give the default. -/
def jsOrInt (v : Option Int) (d : Int) : Int :=
  match v with
  | none => d
  | some x => if x = 0 then d else x

/-- Result record of `buildFilter` (`server.cjs` line 39 comment:
`{ filter, outW, outH, outFPS }`). -/
structure FilterResult where
  filter : String
  outW : Int
  outH : Int
  outFPS : Int
  deriving DecidableEq, Repr

/-- Embeds `buildFilter` (`server.cjs` 40-67): resolution parsing with
defaults, the motion-dependent crop expression, the optional zoom
prescale, and the assembled `[0:v]...[v0]` filter string. -/
def buildFilter (resolution : String) (fps : Int) (motion : String) : FilterResult :=
  let parts := (resolution.splitOn "x").map jsParseIntOr0
  let outW := max 16 (jsOrInt parts[0]? 720)
  let outH := max 16 (jsOrInt parts[1]? 1280)
  let outFPS := if fps = 0 then 24 else fps
  let cropXY :=
    if motion = "shake" then
      "x='(in_w-out_w)/2 + 6*sin(2*t)':y='(in_h-out_h)/2 + 6*sin(1.7*t)'"
    else if motion = "pan" then
      "x='(in_w-out_w)/2 + 20*sin(0.3*t)':y='(in_h-out_h)/2'"
    else
      "x='(in_w-out_w)/2':y='(in_h-out_h)/2'"
  let zoomPre :=
    if motion = "zoom" then
      "scale=" ++ toString outW ++ "*1.08:" ++ toString outH ++ "*1.08:flags=bicubic,"
    else ""
  { filter := "[0:v]" ++ zoomPre ++
      "scale=" ++ toString outW ++ ":" ++ toString outH ++ ":force_original_aspect_ratio=increase," ++
      "crop=" ++ toString outW ++ ":" ++ toString outH ++ ":" ++ cropXY ++ "," ++
      "fps=" ++ toString outFPS ++ ",format=yuv420p[v0]",
    outW := outW, outH := outH, outFPS := outFPS }

/-- Decimal rendering of `x * 1.06` (`part_004` line 71) as the exact
value `x * 106 / 100`; JavaScript's IEEE-754 product can differ from the
exact product in the last printed digits, which no claim below depends
on. -/
def jsMul106 (x : Nat) : String :=
  let v := x * 106
  if v % 100 = 0 then toString (v / 100)
  else if v % 10 = 0 then toString (v / 100) ++ "." ++ toString (v % 100 / 10)
  else toString (v / 100) ++ "." ++ (if v % 100 < 10 then "0" else "") ++ toString (v % 100)

/-- Embeds `buildMotion` (`part_004` 69-85): prescale + setsar, then the
motion-discriminated crop/zoompan; an unrecognized discriminant falls
back to the static centre crop. -/
def buildMotion (motion : String) (W H : Nat) : String :=
  let pre := "scale=" ++ jsMul106 W ++ ":" ++ jsMul106 H ++ ",setsar=1"
  if motion = "shake" then
    pre ++ ",crop=" ++ toString W ++ ":" ++ toString H ++
      ":x='(in_w-" ++ toString W ++ ")/2+5*sin(2*t)':y='(in_h-" ++ toString H ++ ")/2+5*sin(1.5*t)'"
  else if motion = "pan" then
    pre ++ ",crop=" ++ toString W ++ ":" ++ toString H ++
      ":x='(in_w-" ++ toString W ++ ")/2+20*sin(t*0.3)':y='(in_h-" ++ toString H ++ ")/2'"
  else if motion = "zoom" then
    pre ++ ",zoompan=z='1+0.05*sin(t*0.5)':d=1:x='iw/2-(iw/" ++ toString W ++
      ")*0.5':y='ih/2-(ih/" ++ toString H ++ ")*0.5'" ++
      ",scale=" ++ toString W ++ ":" ++ toString H
  else pre ++ ",crop=" ++ toString W ++ ":" ++ toString H

/-- A dynamic filter toggle of `part_004` (`options.filters.rgbashift` /
`tmix`): absent, a truthy non-number (`true` in the examples), or a
number. -/
inductive JsFilterOpt where
  | absent : JsFilterOpt
  | boolTrue : JsFilterOpt
  | num (v : Int) : JsFilterOpt
  deriving DecidableEq, Repr

/-- JS truthiness of a `JsFilterOpt`. -/
def JsFilterOpt.truthy : JsFilterOpt → Bool
  | .absent => false
  | .boolTrue => true
  | .num v => v != 0

/-- `typeof f === "number" ? f : d`. -/
def JsFilterOpt.amountOr (d : Int) : JsFilterOpt → Int
  | .num v => v
  | _ => d

/-- Terminating-decimal rendering of a nonnegative rational (the clamped
vignette strength); JavaScript float printing is abstracted by this
exact rendering, on which no claim below depends.  `fuel` bounds the
expansion. -/
def fracDigits : Nat → Nat → Nat → List Char
  | 0, _, _ => []
  | _ + 1, 0, _ => []
  | fuel + 1, r, d => Char.ofNat (48 + r * 10 / d) :: fracDigits fuel (r * 10 % d) d

/-- Decimal rendering of a nonnegative rational, integer part then up to
ten fraction digits. -/
def decString (q : ℚ) : String :=
  let n := q.num.toNat
  if n % q.den = 0 then toString (n / q.den)
  else toString (n / q.den) ++ "." ++ String.mk (fracDigits 10 (n % q.den) q.den)

/-- Options record passed to `buildFilterChain` (`part_004` 283-289):
motion discriminant, filter toggles, optional SRT path, subtitle style
knobs. -/
structure FCOptions where
  motion : String := "none"
  rgbashift : JsFilterOpt := JsFilterOpt.absent
  tmix : JsFilterOpt := JsFilterOpt.absent
  glitchOverlay : Bool := false
  vignette : Option ℚ := none
  srtPath : Option String := none
  subFontsize : Option Nat := none
  subOutline : Option Nat := none
  deriving DecidableEq, Repr

/-- JavaScript `x || d` on a possibly-undefined nonnegative number. -/
def jsOrNat (v : Option Nat) (d : Nat) : Nat :=
  match v with
  | none => d
  | some 0 => d
  | some k => k

/-- Embeds the SRT path escaping of `part_004` line 133:
`.replace(/'/g, "\\\\'").replace(/:/g, "\\\\:")`. -/
def jsEscapeSrtPath (p : String) : String :=
  (p.replace "'" "\\\\'").replace ":" "\\\\:"

/-- JavaScript `s.replace(pat, repl)` with a plain-string pattern:
replaces the first occurrence only. -/
def replaceFirst (s pat repl : String) : String :=
  match s.splitOn pat with
  | [] => s
  | [_] => s
  | x :: y :: rest => x ++ repl ++ String.intercalate pat (y :: rest)

/-- One audio track's normalization stage (`part_004` 121-125): input
`[k:a]`, canonical format/resample, output `[a<k>]` (`k` is the 1-based
input index). -/
def audioNormStage (k : Nat) : String :=
  "[" ++ toString k ++
    ":a]aformat=sample_fmts=fltp:sample_rates=44100:channel_layouts=stereo,aresample=44100[a" ++
    toString k ++ "]"

/-- The reference `[a<k>]` to the k-th normalized track (`part_004`
line 127). -/
def audioTrackRef (k : Nat) : String := "[a" ++ toString k ++ "]"

/-- Embeds the audio chain of `buildFilterChain` (`part_004` 113-129):
`anullsrc` for zero tracks, normalize-only for one, and for `n ≥ 2`
per-track normalization stages joined by `;` followed by the in-order
concat node. -/
def afilters (aCount : Nat) : String :=
  if aCount = 0 then "anullsrc=r=44100:cl=mono[aud]"
  else if aCount = 1 then
    "[1:a]aformat=sample_fmts=fltp:sample_rates=44100:channel_layouts=stereo,aresample=44100,pan=stereo|c0=c0|c1=c0[aud]"
  else
    let normSeq := String.intercalate ";" ((List.range aCount).map fun i => audioNormStage (i + 1))
    let refs := String.join ((List.range aCount).map fun i => audioTrackRef (i + 1))
    normSeq ++ ";" ++ refs ++ "concat=n=" ++ toString aCount ++ ":v=0:a=1[aud]"

/-- Result of `buildFilterChain` (`part_004` line 141):
`{ filterComplex, vOut, aOut }`. -/
structure FilterChain where
  filterComplex : String
  vOut : String
  aOut : String
  deriving DecidableEq, Repr

/-- Embeds `buildFilterChain` (`part_004` 87-142): video chain from
`[0:v]` through motion, optional rgbashift/tmix/noise/vignette, fps and
format to `[v]`; subtitle insertion by replacing `[v]`; audio chain via
`afilters`; final `filterComplex = chain;afilters`. -/
def buildFilterChain (o : FCOptions) (W H fps : Nat) (audioCount : Nat) : FilterChain :=
  let chain0 := "[0:v]" ++ buildMotion o.motion W H
  let chain1 :=
    if o.rgbashift.truthy then
      let amt := o.rgbashift.amountOr 2
      chain0 ++ ",rgbashift=rg=" ++ toString amt ++ ":bg=" ++ toString amt ++
        ":rb=" ++ toString amt ++ ":bb=" ++ toString amt
    else chain0
  let chain2 :=
    if o.tmix.truthy then
      let frames := o.tmix.amountOr 2
      chain1 ++ ",tmix=frames=" ++ toString (max 2 (min 5 frames))
    else chain1
  let chain3 := if o.glitchOverlay then chain2 ++ ",noise=alls=10:allf=t+u" else chain2
  let chain4 :=
    match o.vignette with
    | some v =>
      if v ≠ 0 then
        let strength := min 1 (max 0 v)
        if strength > 0 then chain3 ++ ",vignette=PI/5:" ++ decString strength else chain3
      else chain3
    | none => chain3
  let chain5 := chain4 ++ ",fps=" ++ toString fps ++ ",format=yuv420p[v]"
  let chain6 :=
    match o.srtPath with
    | some p =>
      replaceFirst chain5 "[v]"
        (",subtitles='" ++ jsEscapeSrtPath p ++ "':force_style='Fontsize=" ++
          toString (jsOrNat o.subFontsize 28) ++ ",Outline=" ++
          toString (jsOrNat o.subOutline 1) ++ ",PrimaryColour=&H00FFFFFF&'[v]")
    | none => chain5
  { filterComplex := chain6 ++ ";" ++ afilters audioCount, vOut := "[v]", aOut := "[aud]" }

/-! ## server.js subtitle wiring (C9, `server.js` lines 360-389)

```
let subtitlesFilter = "";
if (subtitles && (subtitles.srt_url || subtitles.srt_text)) {
  ...
  subtitlesFilter = `,subtitles='...':force_style='...'`;
}
...
const motion = buildMotionFilter(style);
const filter = subtitles
  ? motion.replace(/\[v\]$/, "[v0]") + `${subtitlesFilter}[v]`
  : motion;
```

The guard that *sets* `subtitlesFilter` requires actual subtitle content
(`srt_url || srt_text`), but the guard that *rewires* `[v]` to `[v0]`
only checks that the `subtitles` field is truthy. -/

/-- Character-list `endsWith` (kernel-reducible form of the library
function, over the ASCII strings the builders produce). -/
def endsWithStr (s pat : String) : Bool := List.isSuffixOf pat.data s.data

/-- Drop the last `n` characters of `s`. -/
def dropRightStr (s : String) (n : Nat) : String :=
  String.mk (s.data.take (s.data.length - n))

/-- Embeds `motion.replace(/\[v\]$/, "[v0]")` (`server.js` line 388):
rewrite a trailing `[v]` label to `[v0]`. -/
def jsReplaceTrailingV (s : String) : String :=
  if endsWithStr s "[v]" then dropRightStr s 3 ++ "[v0]" else s

/-- Embeds `subtitlesFilter` (`server.js` 362-379): set only when the
subtitles object carries a URL or inline text, otherwise the empty
string.  `srtFileEsc` and `forceStyleEsc` stand for the escaped SRT path
and `buildAssStyle` output. -/
def subtitlesFilterFor (hasSrtContent : Bool) (srtFileEsc forceStyleEsc : String) : String :=
  if hasSrtContent then
    ",subtitles='" ++ srtFileEsc ++ "':force_style='" ++ forceStyleEsc ++ "'"
  else ""

/-- Embeds the `filter` expression (`server.js` 387-389): when the
`subtitles` field is truthy, relabel the motion chain's `[v]` to `[v0]`
and append `subtitlesFilter` and a final `[v]`. -/
def serverJsFilter (subtitlesPresent hasSrtContent : Bool)
    (srtFileEsc forceStyleEsc : String) (o : MotionOpts) : String :=
  let motion := buildMotionFilter o
  if subtitlesPresent then
    jsReplaceTrailingV motion ++ subtitlesFilterFor hasSrtContent srtFileEsc forceStyleEsc ++ "[v]"
  else motion

/-- Number of occurrences of `pat` in `s` (as character substrings). -/
def countOccs (pat s : String) : Nat :=
  (List.range (s.data.length + 1)).countP fun i => List.isPrefixOf pat.data (s.data.drop i)

/-! ## Claim theorems: C1, C2, C9 -/

/-- The bundled inputs of the three embedded builders: one style/asset
configuration for each. -/
structure BuilderInputs where
  motionOpts : MotionOpts
  resolution : String
  fps : Int
  motionKind : String
  fcOptions : FCOptions
  fcWidth : Nat
  fcHeight : Nat
  fcFps : Nat
  audioCount : Nat
  deriving DecidableEq, Repr

/-- All three embedded builders applied to one bundled input. -/
def buildAllFilters (i : BuilderInputs) : String × FilterResult × FilterChain :=
  (buildMotionFilter i.motionOpts,
   buildFilter i.resolution i.fps i.motionKind,
   buildFilterChain i.fcOptions i.fcWidth i.fcHeight i.fcFps i.audioCount)

/-- C1: the effect-graph builders are pure and deterministic.  Each is
embedded as a total Lean function of its arguments alone — construction
has no effects by construction — and two calls on identical
(style, resolved-assets) inputs produce byte-identical serialized filter
strings. -/
theorem effect_graph_builder_deterministic (x y : BuilderInputs) (h : x = y) :
    buildAllFilters x = buildAllFilters y := by
  rw [h]

/-- Witness for C1 at a concrete style configuration. -/
theorem effect_graph_builder_deterministic_witness :
    buildAllFilters ⟨{}, "720x1280", 24, "shake", {}, 720, 1280, 24, 2⟩ =
      buildAllFilters ⟨{}, "720x1280", 24, "shake", {}, 720, 1280, 24, 2⟩ :=
  effect_graph_builder_deterministic _ _ rfl

/-- The audio pipeline C2 describes, built the way the spec words it:
track 1's normalization stage, then track 2's, …, in caller order. -/
def specNormChain : Nat → List String
  | 0 => []
  | k + 1 => specNormChain k ++ [audioNormStage (k + 1)]

/-- The concat node's input references, spec-side: the reference to track
k + 1 comes right after the reference to track k, so segment i plays
before segment i + 1. -/
def specConcatRefs : Nat → String
  | 0 => ""
  | k + 1 => specConcatRefs k ++ audioTrackRef (k + 1)

theorem String.join_append' (l1 l2 : List String) :
    String.join (l1 ++ l2) = String.join l1 ++ String.join l2 := by
  rw [String.join_eq, String.join_eq, String.join_eq]
  apply String.ext
  show (List.map String.data (l1 ++ l2)).flatten =
    ((List.map String.data l1).flatten ++ (List.map String.data l2).flatten)
  rw [List.map_append, List.flatten_append]

theorem range_map_normChain (n : Nat) :
    (List.range n).map (fun i => audioNormStage (i + 1)) = specNormChain n := by
  induction n with
  | zero => simp [specNormChain]
  | succ k ih =>
    rw [List.range_succ, List.map_append, ih]
    simp [specNormChain]

theorem join_refs_eq_specConcatRefs (n : Nat) :
    String.join ((List.range n).map fun i => audioTrackRef (i + 1)) = specConcatRefs n := by
  induction n with
  | zero => simp [specConcatRefs]; rfl
  | succ k ih =>
    rw [List.range_succ, List.map_append, String.join_append', ih]
    simp [specConcatRefs]
    rfl

/-- C2: for `n ≥ 2` audio references, the audio chain built by
`buildFilterChain` normalizes each track and concatenates all of them in
exactly the caller's input order with a single gapless concat node:
it equals the spec-side pipeline (normalization stages of tracks 1..n in
order, then the concat whose i-th input reference is track i), and the
i-th normalization stage handles input track i + 1. -/
theorem audio_concat_in_order (n : Nat) (hn : 2 ≤ n) :
    afilters n =
      String.intercalate ";" (specNormChain n) ++ ";" ++ specConcatRefs n ++
        "concat=n=" ++ toString n ++ ":v=0:a=1[aud]" ∧
    (∀ i, i < n → (specNormChain n)[i]? = some (audioNormStage (i + 1))) := by
  have h0 : ¬ n = 0 := by omega
  have h1 : ¬ n = 1 := by omega
  refine ⟨?_, fun i hi => ?_⟩
  · rw [afilters, if_neg h0, if_neg h1, range_map_normChain, join_refs_eq_specConcatRefs]
  · rw [← range_map_normChain]
    simp [List.getElem?_map, List.getElem?_range hi]

/-- Witness for C2 at three audio tracks. -/
theorem audio_concat_in_order_witness :
    afilters 3 =
      String.intercalate ";" (specNormChain 3) ++ ";" ++ specConcatRefs 3 ++
        "concat=n=" ++ toString 3 ++ ":v=0:a=1[aud]" :=
  (audio_concat_in_order 3 (by decide)).1

/-! ## SRT generation (C10, `part_004` 144-168 / `part_002` 56-79)

```
function toSrtTime(v) {
  if (typeof v === "number") {
    const ms = Math.max(0, Math.round(v * 1000));
    const hh = String(Math.floor(ms / 3600000)).padStart(2, "0");
    const mm = String(Math.floor((ms % 3600000) / 60000)).padStart(2, "0");
    const ss = String(Math.floor((ms % 60000) / 1000)).padStart(2, "0");
    const mmm = String(ms % 1000).padStart(3, "0");
    return `${hh}:${mm}:${ss},${mmm}`;
  }
  return v;
}
const lines = [];
(captions || []).forEach((c, i) => {
  lines.push(String(i + 1));
  lines.push(`${toSrtTime(c.start)} --> ${toSrtTime(c.end)}`);
  lines.push((c.text || "").replace(/\r?\n/g, "\n"));
  lines.push("");
});
const srt = lines.join("\n");
``` -/

/-- Embeds JavaScript `s.padStart(3, "0")`. -/
def jsPadStart3 (s : String) : String :=
  if s.length < 3 then String.mk (List.replicate (3 - s.length) '0') ++ s else s

/-- JavaScript `Math.round`: half rounds toward positive infinity. -/
def jsRound (q : ℚ) : Int := Int.floor (q + 1 / 2)

/-- Embeds `Math.max(0, Math.round(v * 1000))`: the clamped millisecond
value of a numeric caption time. -/
def msOfSeconds (v : ℚ) : Nat := (max 0 (jsRound (v * 1000))).toNat

/-- Embeds the `hh:mm:ss,mmm` rendering of `toSrtTime`
(`part_004` 148-153). -/
def srtTimestamp (ms : Nat) : String :=
  jsPadStart2 (toString (ms / 3600000)) ++ ":" ++
    jsPadStart2 (toString (ms % 3600000 / 60000)) ++ ":" ++
    jsPadStart2 (toString (ms % 60000 / 1000)) ++ "," ++
    jsPadStart3 (toString (ms % 1000))

/-- A caption's `start`/`end` value: a number of seconds or a preformatted
string (`part_004` line 145 comment). -/
inductive CapTime where
  | num (seconds : ℚ) : CapTime
  | str (text : String) : CapTime
  deriving DecidableEq, Repr

/-- Embeds `toSrtTime` (`part_004` 146-156): format a numeric time,
pass a string through. -/
def toSrtTime : CapTime → String
  | CapTime.num v => srtTimestamp (msOfSeconds v)
  | CapTime.str s => s

/-- One entry of the `captions` array; the source's `end` field is named
`stop` (`end` is a Lean keyword). -/
structure Caption where
  text : String := ""
  start : CapTime
  stop : CapTime
  deriving DecidableEq, Repr

/-- Embeds `(c.text || "").replace(/\r?\n/g, "\n")`: normalize CRLF line
breaks (the regex rewrites `\r\n` and lone `\n` both to `\n`, so only
`\r\n` pairs change). -/
def jsNormalizeNewlines (s : String) : String := s.replace "\r\n" "\n"

/-- The four lines pushed for one enumerated caption
(`part_004` 158-163). -/
def capBlock (p : Nat × Caption) : List String :=
  [toString (p.1 + 1),
   toSrtTime p.2.start ++ " --> " ++ toSrtTime p.2.stop,
   jsNormalizeNewlines p.2.text,
   ""]

/-- Embeds the `forEach` loop (`part_004` 157-163): the pushed lines, in
order. -/
def srtLines (captions : List Caption) : List String :=
  captions.enum.flatMap capBlock

/-- Embeds `ensureSrtFromCaptions`'s file content, `lines.join("\n")`
(`part_004` line 164). -/
def ensureSrtFromCaptions (captions : List Caption) : String :=
  String.intercalate "\n" (srtLines captions)

theorem srtLines_enumFrom_get (cs : List Caption) :
    ∀ n i, ∀ h : i < cs.length,
      ((List.enumFrom n cs).flatMap capBlock)[4 * i]? = some (toString (n + i + 1)) ∧
      ((List.enumFrom n cs).flatMap capBlock)[4 * i + 1]? =
        some (toSrtTime (cs.get ⟨i, h⟩).start ++ " --> " ++
          toSrtTime (cs.get ⟨i, h⟩).stop) := by
  induction cs with
  | nil => intro n i h; simp at h
  | cons c cs ih =>
    intro n i h
    match i with
    | 0 =>
      rw [List.enumFrom, List.flatMap_cons]
      constructor
      · simp [capBlock]
      · simp [capBlock]
    | j + 1 =>
      have hj : j < cs.length := by simpa using h
      have hrec := ih (n + 1) j hj
      rw [List.enumFrom, List.flatMap_cons]
      have hlen : (capBlock (n, c)).length = 4 := by simp [capBlock]
      constructor
      · rw [List.getElem?_append_right (by omega), hlen,
          show 4 * (j + 1) - 4 = 4 * j from by omega]
        rw [hrec.1]
        congr 2
        omega
      · rw [List.getElem?_append_right (by omega), hlen,
          show 4 * (j + 1) + 1 - 4 = 4 * j + 1 from by omega]
        rw [hrec.2]
        rfl

/-- C10: the generated SRT numbers cues consecutively `1..N` in input
order with each cue's timing line right after its number; a negative
numeric time is clamped to `00:00:00,000`; a numeric time is rendered as
the zero-padded `HH:MM:SS,mmm` decomposition of its clamped millisecond
value (components bounded and padded to widths 2,2,2,3); a string time
passes through unchanged. -/
theorem srt_from_captions_correct :
    (∀ (cs : List Caption) (i : Nat), ∀ h : i < cs.length,
      (srtLines cs)[4 * i]? = some (toString (i + 1)) ∧
      (srtLines cs)[4 * i + 1]? =
        some (toSrtTime (cs.get ⟨i, h⟩).start ++ " --> " ++
          toSrtTime (cs.get ⟨i, h⟩).stop)) ∧
    (∀ q : ℚ, q < 0 → toSrtTime (CapTime.num q) = "00:00:00,000") ∧
    (∀ ms : Nat,
      ms = 3600000 * (ms / 3600000) + 60000 * (ms % 3600000 / 60000) +
        1000 * (ms % 60000 / 1000) + ms % 1000 ∧
      ms % 3600000 / 60000 < 60 ∧ ms % 60000 / 1000 < 60 ∧ ms % 1000 < 1000 ∧
      2 ≤ (jsPadStart2 (toString (ms / 3600000))).length ∧
      2 ≤ (jsPadStart2 (toString (ms % 3600000 / 60000))).length ∧
      2 ≤ (jsPadStart2 (toString (ms % 60000 / 1000))).length ∧
      3 ≤ (jsPadStart3 (toString (ms % 1000))).length) ∧
    (∀ s : String, toSrtTime (CapTime.str s) = s) := by
  refine ⟨fun cs i h => ?_, fun q hq => ?_, fun ms => ?_, fun s => rfl⟩
  · have := srtLines_enumFrom_get cs 0 i h
    rw [srtLines, List.enum]
    exact ⟨by rw [this.1]; congr 2; omega, this.2⟩
  · have hms : msOfSeconds q = 0 := by
      rw [msOfSeconds]
      have hneg : q * 1000 < 0 := mul_neg_of_neg_of_pos hq (by norm_num)
      have hlt : jsRound (q * 1000) < 1 := by
        rw [jsRound, Int.floor_lt]
        push_cast
        linarith
      have : max 0 (jsRound (q * 1000)) = 0 := by omega
      rw [this]
      rfl
    rw [toSrtTime, hms]
    decide
  · refine ⟨by omega, by omega, by omega, by omega, ?_, ?_, ?_, ?_⟩
    · rw [jsPadStart2]
      by_cases hl : (toString (ms / 3600000)).length < 2
      · rw [if_pos hl]
        simp [String.length_append]
        omega
      · rw [if_neg hl]
        omega
    · rw [jsPadStart2]
      by_cases hl : (toString (ms % 3600000 / 60000)).length < 2
      · rw [if_pos hl]
        simp [String.length_append]
        omega
      · rw [if_neg hl]
        omega
    · rw [jsPadStart2]
      by_cases hl : (toString (ms % 60000 / 1000)).length < 2
      · rw [if_pos hl]
        simp [String.length_append]
        omega
      · rw [if_neg hl]
        omega
    · rw [jsPadStart3]
      by_cases hl : (toString (ms % 1000)).length < 3
      · rw [if_pos hl]
        simp [String.length_append]
        omega
      · rw [if_neg hl]
        omega

/-- Witness for C10: the timestamp decomposition facts at 3 723 004 ms
(1 h 2 min 3.004 s), by applying the main theorem there. -/
theorem srt_from_captions_correct_witness :
    3723004 = 3600000 * (3723004 / 3600000) + 60000 * (3723004 % 3600000 / 60000) +
      1000 * (3723004 % 60000 / 1000) + 3723004 % 1000 ∧
    3723004 % 3600000 / 60000 < 60 ∧ 3723004 % 60000 / 1000 < 60 ∧
    3723004 % 1000 < 1000 ∧
    2 ≤ (jsPadStart2 (toString (3723004 / 3600000))).length ∧
    2 ≤ (jsPadStart2 (toString (3723004 % 3600000 / 60000))).length ∧
    2 ≤ (jsPadStart2 (toString (3723004 % 60000 / 1000))).length ∧
    3 ≤ (jsPadStart3 (toString (3723004 % 1000))).length :=
  srt_from_captions_correct.2.2.1 3723004

set_option maxRecDepth 40000 in
/-- C9 evaluated at the failing input (the `subtitles` field present but
carrying neither `srt_url` nor `srt_text`): the `server.js` construction
relabels the motion chain's sink to `[v0]` yet appends no subtitle stage,
leaving a filter that ends in `[v0][v]` — the final stage carries two
output labels, `[v0]` occurring once (produced, never consumed), so the
video graph is not a single-sink chain. -/
theorem effect_graph_dangling_label :
    endsWithStr (serverJsFilter true false "" "" {}) "[v0][v]" = true ∧
    countOccs "[v0]" (serverJsFilter true false "" "" {}) = 1 ∧
    countOccs "[v]" (serverJsFilter true false "" "" {}) = 1 := by
  refine ⟨by decide, by decide, by decide⟩

end FFSvc
